import Mathlib

/-
Verification of art_board_server.py, a self-contained local HTTP server that
serves a bundled set of static files.  The Python source is embedded shallowly:
pure helpers become Lean functions, the filesystem and other ambient state are
passed explicitly (directory-existence predicates, directory trees, clocks),
and exceptional control flow is made explicit with Except values and recorded
flags.  Definitions come first, theorems after.
-/

namespace ArtBoard

/-! ## Configuration constants (lines 18-19 of the source) -/

def PORT : Nat := 8080

def HOST : String := "127.0.0.1"

/-! ## Path helpers

The server runs its path logic through os.path.  We model the pieces it
actually uses: os.path.join of a directory and a simple component, and
os.path.splitext extension extraction (posix separator, as used for the
translated request paths the handler sees). -/

def joinPath (d f : String) : String := d ++ "/" ++ f

/-- Index of the last occurrence of a character in a list, if any. -/
def lastIndexOf (c : Char) : List Char → Option Nat
  | [] => none
  | x :: xs =>
    match lastIndexOf c xs with
    | some i => some (i + 1)
    | none => if x = c then some (0 : Nat) else none

/-- Extension of a path per os.path.splitext: the suffix starting at the last
dot, provided that dot lies after the last separator and some character of the
basename before it is not a dot (leading dots of a basename never start an
extension, so splitext of ".html" yields no extension). -/
def extOf (p : String) : String :=
  let l := p.data
  match lastIndexOf '.' l with
  | none => ""
  | some d =>
    let fstart :=
      match lastIndexOf '/' l with
      | none => 0
      | some si => si + 1
    if fstart ≤ d ∧ (List.range' fstart (d - fstart)).any (fun k => l.getD k '.' ≠ '.') then
      String.mk (l.drop d)
    else ""

/-- ASCII lowercasing of a string, as Python str.lower acts on the ASCII
extensions involved here. -/
def lowerStr (s : String) : String := String.mk (s.data.map Char.toLower)

/-! ## Extended MIME table (QuietHandler.guess_type, lines 101-131) -/

/-- The mime_types dict of guess_type, in source order. -/
def mime_types : List (String × String) :=
  [(".html", "text/html"),
   (".htm", "text/html"),
   (".css", "text/css"),
   (".js", "application/javascript"),
   (".mjs", "application/javascript"),
   (".json", "application/json"),
   (".png", "image/png"),
   (".jpg", "image/jpeg"),
   (".jpeg", "image/jpeg"),
   (".gif", "image/gif"),
   (".svg", "image/svg+xml"),
   (".ico", "image/x-icon"),
   (".woff", "font/woff"),
   (".woff2", "font/woff2"),
   (".ttf", "font/ttf"),
   (".eot", "application/vnd.ms-fontobject"),
   (".mp3", "audio/mpeg"),
   (".wav", "audio/wav"),
   (".mp4", "video/mp4"),
   (".webm", "video/webm"),
   (".webp", "image/webp"),
   (".wasm", "application/wasm")]

/-- QuietHandler.guess_type: split off the extension, lowercase it, look it up
in the table, and otherwise defer to the baseline handler resolution
(super().guess_type), which we pass in as a function. -/
def guess_type (baseline : String → String) (path : String) : String :=
  match List.lookup (lowerStr (extOf path)) mime_types with
  | some m => m
  | none => baseline path

/-! ## File locator (get_bundled_files_path, lines 24-40) -/

/-- The candidate folder names of the unpackaged branch, in source order. -/
def candidateFolders : List String :=
  ["build", "dist", "public", "www", "out", "static", "static_files"]

/-- The for loop of the unpackaged branch: return the first candidate that is
an existing directory beside the script, else the script directory itself. -/
def firstExistingDir (isdir : String → Bool) (dir : String) : List String → String
  | [] => dir
  | f :: rest =>
    if isdir (joinPath dir f) then joinPath dir f else firstExistingDir isdir dir rest

/-- get_bundled_files_path.  The ambient state enters as parameters: frozen is
the sys.frozen attribute (absent reads as false), isdir is os.path.isdir over
the current filesystem, meipass is the sys._MEIPASS bundle root, script_dir
the directory of the script. -/
def get_bundled_files_path (frozen : Bool) (isdir : String → Bool)
    (meipass script_dir : String) : String :=
  if frozen then
    if isdir (joinPath meipass "static_files") then joinPath meipass "static_files"
    else meipass
  else
    firstExistingDir isdir script_dir candidateFolders

/-- Spec-side restatement of the unpackaged locator: the first existing
candidate directory in priority order, with the script directory as fallback. -/
def locatorSpec (isdir : String → Bool) (dir : String) : String :=
  match candidateFolders.find? (fun f => isdir (joinPath dir f)) with
  | some f => joinPath dir f
  | none => dir

/-! ## Response headers (QuietHandler.end_headers, lines 96-99)

The baseline handler buffers each header line as send_header is called; the
terminating blank line is written by the baseline end_headers.  The override
appends its two send_header calls to the buffer and then delegates, so the
wire image of the header section is: the buffered baseline headers, then the
two injected headers, then the blank line. -/

structure Header where
  name : String
  value : String
deriving DecidableEq

inductive WireLine where
  | header (h : Header)
  | blank
deriving DecidableEq

def corsHeader : Header := ⟨"Access-Control-Allow-Origin", "*"⟩

def cacheHeader : Header := ⟨"Cache-Control", "no-store, no-cache, must-revalidate"⟩

/-- QuietHandler.end_headers: send_header the CORS header, send_header the
cache header, then the baseline end_headers terminates the section. -/
def end_headers (buffered : List Header) : List WireLine :=
  (buffered ++ [corsHeader, cacheHeader]).map WireLine.header ++ [WireLine.blank]

/-! ## Directory trees

A filesystem subtree: a named listing of entries, each entry a file with byte
content or a subdirectory.  This is the state that extract_to_temp reads from
the bundled path and writes into the temporary directory. -/

mutual

inductive Entry where
  | file (content : List Nat)
  | dir (entries : EntryList)

inductive EntryList where
  | nil
  | cons (name : String) (e : Entry) (rest : EntryList)

end

/-- Entry of a listing under a given name (os.listdir order is the listing
order; names within one directory are unique). -/
def lookupEntry : EntryList → String → Option Entry
  | EntryList.nil, _ => none
  | EntryList.cons n e rest, name =>
    if n = name then some e else lookupEntry rest name

/-- Byte content of the file at a relative path below a listing, if that path
names a file. -/
def fileAt : List String → EntryList → Option (List Nat)
  | [], _ => none
  | n :: rest, es =>
    match lookupEntry es n with
    | some (Entry.file c) => if rest.isEmpty then some c else none
    | some (Entry.dir es2) => fileAt rest es2
    | none => none

mutual

/-- What one copy step of the extraction loop produces for a single entry:
shutil.copy2 duplicates a file byte for byte, shutil.copytree recursively
copies a directory. -/
def copyEntry : Entry → Entry
  | Entry.file c => Entry.file c
  | Entry.dir es => Entry.dir (copyEntries es)

/-- The extraction loop over a listing: each entry is copied under its own
name, via copytree for directories and copy2 for files. -/
def copyEntries : EntryList → EntryList
  | EntryList.nil => EntryList.nil
  | EntryList.cons n e rest => EntryList.cons n (copyEntry e) (copyEntries rest)

end

/-! ## Stager (extract_to_temp, lines 42-64)

The global _temp_dir starts as None; extract_to_temp is called once, from
main.  The ambient inputs are made explicit: the frozen flag, the filesystem
seen by the locator, the listing of the located bundled path, and the fresh
directory name produced by tempfile.mkdtemp.  The result records the returned
serve path, the value of the _temp_dir global after the call, and the tree
written into the temporary directory (none when nothing was written). -/

structure StageResult where
  servePath : String
  tempRef : Option String
  staged : Option EntryList

/-- extract_to_temp: locate the bundled path; when not frozen return it
directly, leaving _temp_dir and the filesystem untouched; when frozen, make
the fresh temp directory, set _temp_dir to it, copy every listed entry into
it, and return it. -/
def extract_to_temp (frozen : Bool) (isdir : String → Bool) (meipass script_dir : String)
    (bundled : EntryList) (fresh : String) : StageResult :=
  if frozen then
    ⟨fresh, some fresh, some (copyEntries bundled)⟩
  else
    ⟨get_bundled_files_path frozen isdir meipass script_dir, none, none⟩

/-- A two-level bundled tree used to exercise the staging theorems. -/
def demoTree : EntryList :=
  EntryList.cons "index.html" (Entry.file [60, 104, 49, 62])
    (EntryList.cons "assets"
      (Entry.dir (EntryList.cons "app.css" (Entry.file [98, 111, 100, 121]) EntryList.nil))
      EntryList.nil)

/-! ## Cleanup (cleanup_temp, lines 66-73)

The deletion itself may fail; its outcome enters as a function returning
Except.  cleanup_temp itself returns Except so that a raised exception would
be visible as an error value; the except-pass swallows it, so the result is
always ok, carrying the number of deletion attempts made. -/

/-- cleanup_temp: if the global reference is set and the path exists, attempt
one shutil.rmtree and swallow any failure; otherwise do nothing. -/
def cleanup_temp (tempRef : Option String) (pathExists : String → Bool)
    (rmtree : String → Except String Unit) : Except String Nat :=
  match tempRef with
  | none => Except.ok 0
  | some d =>
    if pathExists d then
      match rmtree d with
      | Except.ok _ => Except.ok 1
      | Except.error _ => Except.ok 1
    else Except.ok 0

/-! ## Bind-error and interrupt handling (main, lines 133-175)

main registers cleanup_temp with atexit before anything else, stages, prints
the banner, then serves.  serve_forever only ends by raising: a
KeyboardInterrupt is caught and prints the stop message; an OSError is caught,
prints either the specific port-in-use message or a generic one, and then
calls input() unconditionally.  In every caught case main returns normally
and, the script having no sys.exit call, the interpreter exits with code 0
and runs the registered atexit hooks. -/

/-- Substring test over character lists, for the Python in operator. -/
def containsSub (needle : List Char) : List Char → Bool
  | [] => needle.isEmpty
  | c :: t => needle.isPrefixOf (c :: t) || containsSub needle t

/-- The in test of line 167: needle occurs as a contiguous substring of hay. -/
def strContains (hay needle : String) : Bool := containsSub needle.data hay.data

/-- The port-in-use test of line 167: the message contains
"Address already in use", or the errno is the Windows code 10048. -/
def isPortInUseErr (msg : String) (errno : Nat) : Bool :=
  strContains msg "Address already in use" || errno == 10048

/-- How the serving phase of main ended: serve_forever raised either a
KeyboardInterrupt or an OSError (bind failure surfaces here, since TCPServer
is constructed inside the try block). -/
inductive ServeOutcome where
  | interrupted
  | osError (msg : String) (errno : Nat)

/-- Observable outcome of one run of the process around main. -/
structure ProcResult where
  exitCode : Nat
  pausedForEnter : Bool
  cleanupRan : Bool
  printedError : Bool
  printedPortInUse : Bool
deriving DecidableEq

/-- The exception handling of main plus process exit.  frozen is threaded
through to record that no branch of the handler consults it: cleanupRan is
true on every path because atexit.register precedes the try block, exitCode
is 0 on every path because main returns normally and nothing calls sys.exit,
and the OSError branch calls input() unconditionally before returning. -/
def pythonMain (frozen : Bool) (outcome : ServeOutcome) : ProcResult :=
  match frozen, outcome with
  | _, ServeOutcome.interrupted => ⟨0, false, true, false, false⟩
  | _, ServeOutcome.osError msg errno => ⟨0, true, true, true, isPortInUseErr msg errno⟩

/-! ## GET handling (QuietHandler, lines 86-131)

The handler answers a GET by translating the URL path to a location below the
serve root and sending the file bytes with a Content-Type from guess_type, or
the baseline 404 page if nothing is there.  Translation (the baseline
translate_path) strips the query and fragment and walks the remaining
slash-separated components, ignoring empty, current-directory and
parent-directory components.  The only per-call varying input of a response
is the clock used for the Date header; it enters the model explicitly. -/

/-- Query and fragment stripping plus component walk of translate_path. -/
def pathSegments (p : String) : List String :=
  ((((p.splitOn "?").headD p).splitOn "#").headD p).splitOn "/"
    |>.filter (fun s => !(s == "" || s == "." || s == ".."))

/-- Fixed body of the baseline 404 error page. -/
def notFoundBody : List Nat := "File not found".data.map Char.toNat

structure HttpResponse where
  status : Nat
  contentType : String
  dateHeader : Nat
  body : List Nat
deriving DecidableEq

/-- One GET request against the serve root: existing files are served whole
with the guess_type Content-Type, anything else gets the baseline 404; the
clock value now only feeds the Date header. -/
def handleGet (root : EntryList) (baseline : String → String) (now : Nat)
    (rawPath : String) : HttpResponse :=
  match fileAt (pathSegments rawPath) root with
  | some content =>
    ⟨200, guess_type baseline (String.intercalate "/" (pathSegments rawPath)), now, content⟩
  | none => ⟨404, "text/html;charset=utf-8", now, notFoundBody⟩

/-! ## Theorems -/

example : extOf "index.html" = ".html" := by decide
example : extOf ".html" = "" := by decide
example : extOf "/srv/app/game.WASM" = ".WASM" := by decide
example : guess_type (fun _ => "text/plain") "a/b.wasm" = "application/wasm" := rfl
example : guess_type (fun _ => "text/plain") "a/b.zzz" = "text/plain" := rfl
example : strContains "[Errno 98] Address already in use" "Address already in use" = true := by
  decide

theorem firstExistingDir_eq_find (isdir : String → Bool) (dir : String)
    (fs : List String) :
    firstExistingDir isdir dir fs =
      match fs.find? (fun f => isdir (joinPath dir f)) with
      | some f => joinPath dir f
      | none => dir := by
  induction fs with
  | nil => rfl
  | cons f rest ih =>
    cases h : isdir (joinPath dir f) <;>
      simp [firstExistingDir, List.find?, h, ih]

/-- C4: when running unpackaged, the locator returns the first existing
directory beside the script in the fixed priority order, falling back to the
script directory itself; in every filesystem state the result is either the
script directory or one of the candidate joins that exists. -/
theorem locator_unpackaged (isdir : String → Bool) (meipass dir : String) :
    get_bundled_files_path false isdir meipass dir = locatorSpec isdir dir ∧
    (get_bundled_files_path false isdir meipass dir = dir ∨
      ∃ f, f ∈ candidateFolders ∧
        get_bundled_files_path false isdir meipass dir = joinPath dir f ∧
        isdir (joinPath dir f) = true) := by
  have hbase : get_bundled_files_path false isdir meipass dir = locatorSpec isdir dir := by
    simp only [get_bundled_files_path, if_neg Bool.false_ne_true, locatorSpec]
    exact firstExistingDir_eq_find isdir dir candidateFolders
  refine ⟨hbase, ?_⟩
  cases h : candidateFolders.find? (fun f => isdir (joinPath dir f)) with
  | none =>
    left
    rw [hbase, locatorSpec, h]
  | some f =>
    right
    refine ⟨f, List.mem_of_find?_eq_some h, ?_, ?_⟩
    · rw [hbase, locatorSpec, h]
    · simpa using List.find?_some h

/-- C3 (amended): the extension-to-MIME table resolution of guess_type: when
the lowercased extension of the path is a key of the table, the table value is
returned; otherwise the baseline handler resolution for that path is returned
verbatim. -/
theorem guess_type_resolution (baseline : String → String) (path : String) :
    (∀ m, List.lookup (lowerStr (extOf path)) mime_types = some m →
      guess_type baseline path = m) ∧
    (List.lookup (lowerStr (extOf path)) mime_types = none →
      guess_type baseline path = baseline path) := by
  constructor
  · intro m hm
    simp [guess_type, hm]
  · intro hn
    simp [guess_type, hn]

theorem guess_type_resolution_witness :
    guess_type (fun _ => "application/octet-stream") "/srv/game.WASM"
        = "application/wasm" ∧
    guess_type (fun _ => "application/octet-stream") "/srv/data.xyz"
        = "application/octet-stream" :=
  ⟨(guess_type_resolution (fun _ => "application/octet-stream") "/srv/game.WASM").1
      "application/wasm" (by decide),
   (guess_type_resolution (fun _ => "application/octet-stream") "/srv/data.xyz").2
      (by decide)⟩

/-- C3 counterexample: the fixed extension-to-MIME table of guess_type has 22
entries, not 23 as claimed. -/
theorem mime_table_not_23_entries : ¬ (mime_types.length = 23) := by decide

/-- C2: provided the baseline handler did not itself buffer a header of either
name (the stock static-file handler never does), the emitted header section
contains exactly one CORS header and exactly one cache-control header, and the
two sit after all baseline headers and immediately before the blank line. -/
theorem end_headers_exactly_once (buffered : List Header)
    (h1 : ∀ h ∈ buffered, h.name ≠ "Access-Control-Allow-Origin")
    (h2 : ∀ h ∈ buffered, h.name ≠ "Cache-Control") :
    (end_headers buffered).count (WireLine.header corsHeader) = 1 ∧
    (end_headers buffered).count (WireLine.header cacheHeader) = 1 ∧
    end_headers buffered =
      buffered.map WireLine.header ++
        [WireLine.header corsHeader, WireLine.header cacheHeader, WireLine.blank] := by
  have hshape : end_headers buffered =
      buffered.map WireLine.header ++
        [WireLine.header corsHeader, WireLine.header cacheHeader, WireLine.blank] := by
    simp [end_headers]
  have hc0 : (buffered.map WireLine.header).count (WireLine.header corsHeader) = 0 := by
    rw [List.count_eq_zero]
    intro hmem
    obtain ⟨g, hg, heq⟩ := List.mem_map.mp hmem
    have hgc : g = corsHeader := by injection heq
    subst hgc
    exact h1 corsHeader hg rfl
  have hk0 : (buffered.map WireLine.header).count (WireLine.header cacheHeader) = 0 := by
    rw [List.count_eq_zero]
    intro hmem
    obtain ⟨g, hg, heq⟩ := List.mem_map.mp hmem
    have hgc : g = cacheHeader := by injection heq
    subst hgc
    exact h2 cacheHeader hg rfl
  refine ⟨?_, ?_, hshape⟩
  · rw [hshape, List.count_append, hc0]
    decide
  · rw [hshape, List.count_append, hk0]
    decide

theorem end_headers_exactly_once_witness :
    end_headers
        [⟨"Server", "SimpleHTTP/0.6 Python/3.13"⟩,
         ⟨"Date", "Sun, 12 Oct 2025 00:00:00 GMT"⟩,
         ⟨"Content-type", "text/html"⟩,
         ⟨"Content-Length", "1024"⟩] =
      [WireLine.header ⟨"Server", "SimpleHTTP/0.6 Python/3.13"⟩,
       WireLine.header ⟨"Date", "Sun, 12 Oct 2025 00:00:00 GMT"⟩,
       WireLine.header ⟨"Content-type", "text/html"⟩,
       WireLine.header ⟨"Content-Length", "1024"⟩,
       WireLine.header corsHeader, WireLine.header cacheHeader, WireLine.blank] :=
  (end_headers_exactly_once
      [⟨"Server", "SimpleHTTP/0.6 Python/3.13"⟩,
       ⟨"Date", "Sun, 12 Oct 2025 00:00:00 GMT"⟩,
       ⟨"Content-type", "text/html"⟩,
       ⟨"Content-Length", "1024"⟩]
      (by decide) (by decide)).2.2

mutual

theorem copyEntry_eq : (e : Entry) → copyEntry e = e
  | Entry.file _ => rfl
  | Entry.dir es => congrArg Entry.dir (copyEntries_eq es)

theorem copyEntries_eq : (es : EntryList) → copyEntries es = es
  | EntryList.nil => rfl
  | EntryList.cons n e rest => by
    rw [copyEntries, copyEntry_eq e, copyEntries_eq rest]

end

/-- C5: in packaged mode the stager returns the fresh temporary path, records
it in the cleanup reference, stages exactly the copied listing there, and the
copy preserves every file of the bundled source at its relative path with
identical byte content. -/
theorem extract_frozen_staging (isdir : String → Bool) (meipass dir : String)
    (bundled : EntryList) (fresh : String) :
    (extract_to_temp true isdir meipass dir bundled fresh).servePath = fresh ∧
    (extract_to_temp true isdir meipass dir bundled fresh).tempRef = some fresh ∧
    (extract_to_temp true isdir meipass dir bundled fresh).staged
        = some (copyEntries bundled) ∧
    (∀ rel c, fileAt rel bundled = some c → fileAt rel (copyEntries bundled) = some c) := by
  refine ⟨rfl, rfl, rfl, ?_⟩
  intro rel c hc
  rw [copyEntries_eq]
  exact hc

theorem extract_frozen_staging_witness :
    fileAt ["assets", "app.css"] (copyEntries demoTree) = some [98, 111, 100, 121] :=
  (extract_frozen_staging (fun _ => true) "/m" "/srv" demoTree "/tmp/artboard_x").2.2.2
    ["assets", "app.css"] [98, 111, 100, 121] (by decide)

/-- C6: in unpackaged mode the stager is pure pass-through: the locator path
is returned unchanged, no temporary directory is recorded and nothing is
staged, so staging writes nothing to the filesystem. -/
theorem extract_unpackaged_identity (isdir : String → Bool) (meipass dir : String)
    (bundled : EntryList) (fresh : String) :
    extract_to_temp false isdir meipass dir bundled fresh =
      ⟨get_bundled_files_path false isdir meipass dir, none, none⟩ :=
  rfl

/-- Cleanup always returns normally and attempts the deletion at most once,
whatever the reference, the filesystem and the deletion outcome are. -/
theorem cleanup_temp_ok (tempRef : Option String) (pathExists : String → Bool)
    (rmtree : String → Except String Unit) :
    ∃ n, cleanup_temp tempRef pathExists rmtree = Except.ok n ∧ n ≤ 1 := by
  cases tempRef with
  | none => exact ⟨0, rfl, by decide⟩
  | some d =>
    by_cases h : pathExists d = true
    · cases hr : rmtree d with
      | ok u => exact ⟨1, by simp [cleanup_temp, h, hr], by decide⟩
      | error e => exact ⟨1, by simp [cleanup_temp, h, hr], by decide⟩
    · exact ⟨0, by simp [cleanup_temp, h], by decide⟩

/-- C7: the exit-hook cleanup never raises and never retries: for every state
of the temporary-directory reference and every outcome of the recursive
deletion, it returns normally after at most one deletion attempt. -/
theorem cleanup_never_raises (tempRef : Option String) (pathExists : String → Bool)
    (rmtree : String → Except String Unit) :
    ∃ n, cleanup_temp tempRef pathExists rmtree = Except.ok n ∧ n ≤ 1 :=
  cleanup_temp_ok tempRef pathExists rmtree

/-- C10: in unpackaged mode the temporary-directory reference stays none after
staging, so the exit-hook cleanup makes no deletion attempt at all and the
served directory survives process exit. -/
theorem unpackaged_cleanup_noop (isdir : String → Bool) (meipass dir : String)
    (bundled : EntryList) (fresh : String) (pathExists : String → Bool)
    (rmtree : String → Except String Unit) :
    (extract_to_temp false isdir meipass dir bundled fresh).tempRef = none ∧
    cleanup_temp (extract_to_temp false isdir meipass dir bundled fresh).tempRef
        pathExists rmtree = Except.ok 0 :=
  ⟨rfl, rfl⟩

/-- C1 counterexample: a bind failure in unpackaged (non-frozen) mode still
waits for an Enter keypress, and the process exit code is 0, not non-zero. -/
theorem bind_error_unpackaged_pauses_and_exits_zero :
    (pythonMain false
        (ServeOutcome.osError "[Errno 98] Address already in use" 98)).pausedForEnter
      = true ∧
    (pythonMain false
        (ServeOutcome.osError "[Errno 98] Address already in use" 98)).exitCode = 0 := by
  decide

/-- C1 (amended): on any bind-time OSError the process prints a human-readable
message, waits for an Enter keypress in both packaged and unpackaged modes,
and exits with code 0; when the error is the port-in-use condition the printed
message specifically reports that the port is already in use. -/
theorem bind_error_reports_and_exits (frozen : Bool) (msg : String) (errno : Nat) :
    (pythonMain frozen (ServeOutcome.osError msg errno)).printedError = true ∧
    (pythonMain frozen (ServeOutcome.osError msg errno)).pausedForEnter = true ∧
    (pythonMain frozen (ServeOutcome.osError msg errno)).exitCode = 0 ∧
    (isPortInUseErr msg errno = true →
      (pythonMain frozen (ServeOutcome.osError msg errno)).printedPortInUse = true) := by
  cases frozen <;> exact ⟨rfl, rfl, rfl, fun h => h⟩

theorem bind_error_reports_and_exits_witness :
    (pythonMain true
        (ServeOutcome.osError "[Errno 98] Address already in use" 98)).printedPortInUse
      = true :=
  (bind_error_reports_and_exits true "[Errno 98] Address already in use" 98).2.2.2
    (by decide)

/-- C8: a user interrupt while serving ends the accept loop with a normal
return from main: exit code 0, no pause for input, and the registered exit
hook still runs, where it completes normally in at most one deletion
attempt whatever the temporary-directory state is. -/
theorem interrupt_clean_exit (frozen : Bool) (tempRef : Option String)
    (pathExists : String → Bool) (rmtree : String → Except String Unit) :
    (pythonMain frozen ServeOutcome.interrupted).exitCode = 0 ∧
    (pythonMain frozen ServeOutcome.interrupted).pausedForEnter = false ∧
    (pythonMain frozen ServeOutcome.interrupted).cleanupRan = true ∧
    ∃ n, cleanup_temp tempRef pathExists rmtree = Except.ok n ∧ n ≤ 1 := by
  refine ⟨?_, ?_, ?_, cleanup_temp_ok tempRef pathExists rmtree⟩ <;>
    cases frozen <;> rfl

/-- C9: GET handling is deterministic in the served files: two calls for the
same path against the same serve root agree on status, Content-Type and body
bytes even when the per-call clock differs between the two calls. -/
theorem get_deterministic (root : EntryList) (baseline : String → String)
    (p : String) (t1 t2 : Nat) :
    (handleGet root baseline t1 p).body = (handleGet root baseline t2 p).body ∧
    (handleGet root baseline t1 p).contentType
        = (handleGet root baseline t2 p).contentType ∧
    (handleGet root baseline t1 p).status = (handleGet root baseline t2 p).status := by
  cases h : fileAt (pathSegments p) root <;> simp [handleGet, h]

end ArtBoard
